import Mathlib

/-!
Shallow embedding of `src/hooks/contextstream-redirect.py` (the ContextStream
PreToolUse hook: project-root resolution, indexed-project lookup,
ignore-pattern matching, per-tool discovery classification and the final
allow/block verdict of `main`).

Filesystem and path-library behaviour (`pathlib.Path.resolve`, `is_dir`,
`is_file`, `exists`, `os.getcwd`) is modelled by oracles collected in `Env`;
absolute paths are represented as their list of segments (`Path.parts`
without the leading root).  Pure string manipulation from the source
(`fnmatch.fnmatch`, `str.split`, `str.replace`, `str.rstrip`, `str.lower`,
`os.path.basename`) is reimplemented over `List Char` so that every
definition evaluates by kernel reduction.
-/

namespace CSHook

/-! ### Python string primitives -/

/-- Substring test: `needle in hay` for Python strings, on char lists. -/
def containsSubList (needle : List Char) : List Char → Bool
  | [] => needle.isEmpty
  | c :: rest => needle.isPrefixOf (c :: rest) || containsSubList needle rest

/-- Python `needle in hay` for strings. -/
def containsSub (hay needle : String) : Bool :=
  containsSubList needle.data hay.data

/-- Python `s.startswith(pre)`. -/
def pyStartsWith (s pre : String) : Bool :=
  pre.data.isPrefixOf s.data

/-- Python `s.endswith(suf)` (used only with single-char suffixes). -/
def pyEndsWith (s suf : String) : Bool :=
  suf.data.reverse.isPrefixOf s.data.reverse

/-- Python `s.lower()` (ASCII case folding suffices for the hook's inputs). -/
def pyLower (s : String) : String :=
  String.mk (s.data.map Char.toLower)

/-- Python `s.strip()`. -/
def pyStrip (s : String) : String :=
  String.mk (((s.data.dropWhile Char.isWhitespace).reverse.dropWhile Char.isWhitespace).reverse)

/-- Python `s.rstrip(c)` for a one-character strip set. -/
def rstripChar (s : String) (c : Char) : String :=
  String.mk ((s.data.reverse.dropWhile (fun x => x == c)).reverse)

/-- Python `s.rstrip("/\\")` as used by `is_project_indexed`. -/
def rstripSlashes (s : String) : String :=
  String.mk ((s.data.reverse.dropWhile (fun x => x == '/' || x == '\\')).reverse)

/-- Python `s.replace(a, b)` for single characters. -/
def replaceChar (s : String) (a b : Char) : String :=
  String.mk (s.data.map (fun c => if c == a then b else c))

/-- Left-to-right non-overlapping replacement on char lists (nonempty needle),
fuelled by the length of the subject, matching Python `str.replace`. -/
def replaceAux (needle repl : List Char) : Nat → List Char → List Char
  | _, [] => []
  | 0, s => s
  | fuel + 1, c :: rest =>
    if needle.isPrefixOf (c :: rest) then
      repl ++ replaceAux needle repl fuel ((c :: rest).drop needle.length)
    else
      c :: replaceAux needle repl fuel rest

/-- Python `s.replace(needle, repl)` for a nonempty needle. -/
def replaceStr (s needle repl : String) : String :=
  String.mk (replaceAux needle.data repl.data s.data.length s.data)

/-- Python `s.split(sep)` on char lists: `"".split` gives one empty field. -/
def splitCharList (sep : Char) : List Char → List (List Char)
  | [] => [[]]
  | c :: rest =>
    let r := splitCharList sep rest
    if c == sep then [] :: r
    else
      match r with
      | h :: t => (c :: h) :: t
      | [] => [[c]]

/-- Python `s.split(sep)` for a one-character separator. -/
def splitChar (s : String) (sep : Char) : List String :=
  (splitCharList sep s.data).map String.mk

/-- Python `s.splitlines()` restricted to `\n` terminators (every consumer of
the result strips each line, so `\r\n` content behaves identically). -/
def splitLines (s : String) : List String :=
  (splitCharList '\n' s.data).map String.mk

/-- Python `os.path.basename` (the part after the last `/`). -/
def basename (s : String) : String :=
  String.mk ((s.data.reverse.takeWhile (fun c => c != '/')).reverse)

/-! ### `fnmatch.fnmatch` (POSIX `normcase` is the identity, so this is
`fnmatchcase`): `*`, `?` and `[...]` classes with `!` negation and ranges. -/

/-- Split a char list at the first `]`, returning content and remainder. -/
def splitAtRB : List Char → Option (List Char × List Char)
  | [] => none
  | ']' :: rest => some ([], rest)
  | c :: rest =>
    match splitAtRB rest with
    | some (content, r) => some (c :: content, r)
    | none => none

/-- Scan a bracket class body (the chars after `[`): negation flag, members,
rest of the pattern.  A `]` in first member position is a literal member;
an unterminated class yields `none` (the `[` is then a literal). -/
def scanCls (p : List Char) : Option (Bool × List Char × List Char) :=
  let negp : Bool × List Char :=
    match p with
    | '!' :: t => (true, t)
    | _ => (false, p)
  match negp.2 with
  | ']' :: t =>
    match splitAtRB t with
    | some (content, r) => some (negp.1, ']' :: content, r)
    | none => none
  | q =>
    match splitAtRB q with
    | some (content, r) => some (negp.1, content, r)
    | none => none

/-- Does char `c` match the members of a bracket class (`a-b` ranges,
a leading or trailing `-` is literal)? -/
def clsMatch (c : Char) : List Char → Bool
  | a :: '-' :: b :: rest => (a ≤ c && c ≤ b) || clsMatch c rest
  | a :: rest => (c == a) || clsMatch c rest
  | [] => false

/-- Fuelled glob matcher over (pattern, subject); fuel bounded by the sum of
lengths plus one is always sufficient since every step shortens the sum. -/
def globMatch : Nat → List Char → List Char → Bool
  | _, [], [] => true
  | _, [], _ :: _ => false
  | 0, _ :: _, _ => false
  | fuel + 1, '*' :: pr, s =>
    globMatch fuel pr s ||
      (match s with
       | [] => false
       | _ :: sr => globMatch fuel ('*' :: pr) sr)
  | fuel + 1, '?' :: pr, s =>
    (match s with
     | [] => false
     | _ :: sr => globMatch fuel pr sr)
  | fuel + 1, '[' :: pr, s =>
    (match scanCls pr with
     | some (neg, content, rest) =>
       (match s with
        | [] => false
        | c :: sr => (clsMatch c content != neg) && globMatch fuel rest sr)
     | none =>
       (match s with
        | [] => false
        | c :: sr => (c == '[') && globMatch fuel pr sr))
  | fuel + 1, c :: pr, s =>
    (match s with
     | [] => false
     | d :: sr => (c == d) && globMatch fuel pr sr)

/-- Python `fnmatch.fnmatch(name, pat)` on a POSIX system. -/
def fnmatch (name pat : String) : Bool :=
  globMatch (pat.data.length + name.data.length + 1) pat.data name.data

/-! ### Data model -/

/-- Read-only filesystem oracle; paths are absolute, given as segment lists
(`Path("/home/u").parts` minus the leading root, i.e. `["home", "u"]`). -/
structure FS where
  is_dir : List String → Bool
  is_file : List String → Bool
  pathExists : List String → Bool

/-- Python exceptions the hook can let escape or must swallow. -/
inductive PyError where
  | attributeError
  | typeError
deriving DecidableEq

/-- The value `json.loads` can produce. -/
inductive PyJson where
  | null
  | pybool (b : Bool)
  | num (n : Int)
  | str (s : String)
  | arr (elems : List PyJson)
  | obj (fields : List (String × PyJson))

/-- State of the `~/.contextstream/indexed-projects.json` store, abstracted by
the outcome of reading and JSON-parsing it: `readable none` is content that
raises `json.JSONDecodeError`, `readable (some j)` is content parsing to `j`. -/
inductive RegistryFile where
  | missing
  | unreadable
  | readable (parsed : Option PyJson)

/-- State of `<root>/.contextstream/ignore`. -/
inductive IgnoreFileState where
  | absent
  | unreadable
  | content (text : String)

/-- The `tool_input` mapping, restricted to the keys the hook reads;
a `none` field is an absent key. -/
structure ToolInput where
  pattern : Option String
  path : Option String
  file_path : Option String
  subagent_type : Option String

/-- The hook's verdict: exit 0, or exit 2 with a redirect message on stderr. -/
inductive Verdict where
  | allow
  | block (msg : String)
deriving DecidableEq

/-- External state of one hook invocation: filesystem, path resolution
(`Path(s).resolve()` as segments), the registry store, the per-project ignore
file, and the working directory string. -/
structure Env where
  fs : FS
  resolve : String → List String
  registry : RegistryFile
  ignoreFile : List String → IgnoreFileState
  cwd : String

/-- `str(Path)` of an absolute segment list. -/
def segString (segs : List String) : String :=
  match segs with
  | [] => "/"
  | _ => String.join (segs.map (fun s => "/" ++ s))

/-- `str(Path)` of a relative segment list (`[]` is `Path(".")`). -/
def relString (segs : List String) : String :=
  match segs with
  | [] => "."
  | x :: xs => xs.foldl (fun acc s => acc ++ "/" ++ s) x

/-! ### Translations of the hook's functions -/

/-- `DEFAULT_IGNORE_PATTERNS` from the source, verbatim. -/
def DEFAULT_IGNORE_PATTERNS : List String :=
  [".git/", ".svn/", ".hg/",
   "node_modules/", "vendor/", ".pnpm/",
   "target/", "dist/", "build/", "out/", ".next/", ".nuxt/",
   "__pycache__/", ".pytest_cache/", ".mypy_cache/", "venv/", ".venv/", "env/", ".env/",
   ".idea/", ".vscode/", ".vs/",
   "coverage/", ".coverage/",
   "package-lock.json", "yarn.lock", "pnpm-lock.yaml", "Cargo.lock",
   "poetry.lock", "Gemfile.lock", "composer.lock",
   ".DS_Store", "Thumbs.db"]

/-- `DISCOVERY_GLOB_PATTERNS` from the source, verbatim. -/
def DISCOVERY_GLOB_PATTERNS : List String :=
  ["**/*", "**/",
   "src/**", "lib/**", "app/**", "components/**", "pages/**", "api/**",
   "services/**", "utils/**", "helpers/**", "hooks/**", "types/**",
   "models/**", "controllers/**", "routes/**", "tests/**", "__tests__/**",
   "spec/**"]

/-- Python `dict.get(key, dflt)` on parsed JSON object fields. -/
def dictGetD (fields : List (String × PyJson)) (key : String) (dflt : PyJson) : PyJson :=
  match fields with
  | [] => dflt
  | (k, v) :: rest => if k = key then v else dictGetD rest key dflt

/-- `read_indexed_projects`: returns `json.loads(content).get("projects", {})`
with `json.JSONDecodeError`/`IOError`/`OSError` swallowed to `{}`; the
`.get` attribute lookup on a non-dict JSON value raises `AttributeError`,
which the `except` clause does not catch. -/
def read_indexed_projects (reg : RegistryFile) : Except PyError PyJson :=
  match reg with
  | .missing => .ok (.obj [])
  | .unreadable => .ok (.obj [])
  | .readable none => .ok (.obj [])
  | .readable (some j) =>
    match j with
    | .obj fields => .ok (dictGetD fields "projects" (.obj []))
    | _ => .error .attributeError

/-- Python equality of a JSON value with a string (only equal strings match). -/
def pyStrEq (j : PyJson) (s : String) : Bool :=
  match j with
  | .str t => t == s
  | _ => false

/-- Python `needle in container` on a parsed JSON value (dict keys, list
members, substring); `in` on a non-container raises `TypeError`. -/
def py_member (j : PyJson) (needle : String) : Except PyError Bool :=
  match j with
  | .obj fields => .ok (fields.any (fun kv => kv.1 == needle))
  | .arr elems => .ok (elems.any (fun x => pyStrEq x needle))
  | .str s => .ok (containsSub s needle)
  | _ => .error .typeError

/-- Python iteration over a parsed JSON value (dict yields keys). -/
def py_iter (j : PyJson) : Except PyError (List PyJson) :=
  match j with
  | .obj fields => .ok (fields.map (fun kv => PyJson.str kv.1))
  | .arr elems => .ok elems
  | .str s => .ok (s.data.map (fun c => PyJson.str (String.mk [c])))
  | _ => .error .typeError

/-- The trailing-slash-normalized comparison loop of `is_project_indexed`;
`.rstrip` on a non-string element raises `AttributeError`. -/
def anyNormEq (items : List PyJson) (normalized : String) : Except PyError Bool :=
  match items with
  | [] => .ok false
  | .str s :: rest =>
    if rstripSlashes s = normalized then .ok true else anyNormEq rest normalized
  | _ :: _ => .error .attributeError

/-- `is_project_indexed(project_root)`.  `main` calls it on the string form of
an already-resolved root, on which `Path(...).resolve()` is the identity, so
`env.resolve` supplies the resolution. -/
def is_project_indexed (env : Env) (project_root : String) : Except PyError Bool :=
  if project_root = "" then .ok false
  else
    match read_indexed_projects env.registry with
    | .error e => .error e
    | .ok indexed_projects =>
      let resolved_path := segString (env.resolve project_root)
      match py_member indexed_projects resolved_path with
      | .error e => .error e
      | .ok m =>
        if m then .ok true
        else
          let normalized := rstripSlashes resolved_path
          match py_iter indexed_projects with
          | .error e => .error e
          | .ok keys => anyNormEq keys normalized

/-- The ancestor walk of `find_project_root`: the Python loop runs while
`current != current.parent`, i.e. while the segment list is nonempty, so the
filesystem root itself is never examined.  One unit of fuel is spent per
loop iteration; `find_project_root` supplies `current.length`, which is
exactly the number of iterations possible. -/
def findRootFromFuel (fs : FS) : Nat → List String → Option (List String)
  | 0, _ => none
  | fuel + 1, current =>
    if current = [] then none
    else if fs.is_dir (current ++ [".contextstream"]) then some current
    else if fs.pathExists (current ++ [".git"]) then some current
    else findRootFromFuel fs fuel current.dropLast

/-- `find_project_root(start_path)`: resolve, step to the parent when the
path names a file, then walk ancestors looking for a `.contextstream`
directory first and any `.git` entry second. -/
def find_project_root (env : Env) (start_path : String) : Option (List String) :=
  let current := env.resolve start_path
  let current := if env.fs.is_file current then current.dropLast else current
  findRootFromFuel env.fs current.length current

/-- The line filter of `load_ignore_patterns`: strip each line, skip empties
and `#` comments. -/
def parseIgnoreLines (text : String) : List String :=
  (splitLines text).filterMap (fun line =>
    let line := pyStrip line
    if line ≠ "" ∧ pyStartsWith line "#" = false then some line else none)

/-- `load_ignore_patterns(project_root)`: built-in defaults plus the readable
lines of `<root>/.contextstream/ignore`; any read failure keeps defaults. -/
def load_ignore_patterns (env : Env) (project_root : List String) : List String :=
  match env.ignoreFile project_root with
  | .absent => DEFAULT_IGNORE_PATTERNS
  | .unreadable => DEFAULT_IGNORE_PATTERNS
  | .content text => DEFAULT_IGNORE_PATTERNS ++ parseIgnoreLines text

/-- The per-pattern test inside the loop of `is_path_ignored`, applied to the
separator-normalized candidate `path_str`. -/
def patternHit (path_str pattern : String) : Bool :=
  let pattern := replaceChar pattern '\\' '/'
  if pyEndsWith pattern "/" then
    let dir_pattern := rstripChar pattern '/'
    let parts := splitChar path_str '/'
    parts.contains dir_pattern || pyStartsWith path_str (dir_pattern ++ "/")
  else
    fnmatch path_str pattern || fnmatch (basename path_str) pattern ||
      (containsSub pattern "**" && fnmatch path_str (replaceStr pattern "**" "*"))

/-- `is_path_ignored(path, patterns, project_root)`: make the resolved path
relative to the root when it is under it (otherwise fall back to the raw
string, the `except` branch), normalize separators, and short-circuit over
the patterns. -/
def is_path_ignored (env : Env) (path : String) (patterns : List String)
    (project_root : List String) : Bool :=
  let abs_path := env.resolve path
  let path_str :=
    if project_root.isPrefixOf abs_path then
      relString (abs_path.drop project_root.length)
    else path
  let path_str := replaceChar path_str '\\' '/'
  patterns.any (fun pattern => patternHit path_str pattern)

/-- `is_discovery_glob(pattern)`. -/
def is_discovery_glob (pattern : String) : Bool :=
  let pattern_lower := pyLower pattern
  if DISCOVERY_GLOB_PATTERNS.any (fun dp => containsSub pattern_lower dp) then true
  else if pyStartsWith pattern_lower "**/*." || pyStartsWith pattern_lower "**/" then true
  else if containsSub pattern "**" || containsSub pattern "*/" then true
  else false

/-- `is_discovery_grep(pattern, file_path)` (the pattern is never consulted). -/
def is_discovery_grep (pattern : String) (file_path : String) : Bool :=
  if file_path = "" then true
  else if [".", "./", "*", "**"].contains file_path then true
  else if containsSub file_path "*" || containsSub file_path "**" then true
  else false

/-- The `known_files` list of `is_discovery_read`, verbatim. -/
def known_files : List String :=
  ["package.json", "tsconfig.json", "pyproject.toml", "Cargo.toml",
   "go.mod", "pom.xml", "build.gradle", "requirements.txt",
   ".env", ".env.local", ".env.example",
   "README.md", "CLAUDE.md", "AGENTS.md",
   "docker-compose.yml", "Dockerfile",
   ".gitignore", ".eslintrc", ".prettierrc"]

/-- `is_discovery_read(file_path)`: every branch except the empty path
returns `False` (the function deliberately defaults to allowing reads). -/
def is_discovery_read (file_path : String) : Bool :=
  if file_path = "" then true
  else
    let file_name := basename file_path
    if (known_files.map pyLower).contains (pyLower file_name) then false
    else if containsSub file_path ":" then false
    else if pyStartsWith file_path "/" &&
        !(containsSub file_path "*" || containsSub file_path "?") then false
    else false

/-- `is_discovery_search(tool_input)`. -/
def is_discovery_search (ti : ToolInput) : Bool :=
  pyLower (ti.subagent_type.getD "") == "explore"

/-- `get_target_path(tool_name, tool_input)`; `os.getcwd()` is `env.cwd`. -/
def get_target_path (cwd : String) (tool_name : String) (ti : ToolInput) : Option String :=
  if tool_name = "Glob" then some (ti.path.getD cwd)
  else if tool_name = "Grep" then some (ti.path.getD cwd)
  else if tool_name = "Read" then some (ti.file_path.getD "")
  else none

/-- The redirect message `main` prints for a discovery Glob. -/
def globMsg (pattern : String) : String :=
  "STOP: Use mcp__contextstream__search(mode=\"hybrid\", query=\"" ++ pattern ++
    "\") instead of Glob. ContextStream search is faster and provides semantic matching. " ++
    "Only use Glob if ContextStream returns 0 results."

/-- The redirect message `main` prints for a discovery Grep. -/
def grepMsg (pattern : String) : String :=
  "STOP: Use mcp__contextstream__search(mode=\"keyword\", query=\"" ++ pattern ++
    "\") instead of Grep. ContextStream search is indexed and faster. " ++
    "Only use Grep if ContextStream returns 0 results."

/-- The redirect message `main` prints for a Task call with Explore subagent. -/
def exploreMsg : String :=
  "STOP: Use mcp__contextstream__search(mode=\"hybrid\", query=\"...\") " ++
    "instead of Task with Explore subagent. ContextStream search provides " ++
    "indexed semantic code search. Only use Explore if ContextStream returns 0 results."

/-- The redirect message `main` prints for a Task call with Plan subagent. -/
def taskPlanMsg : String :=
  "STOP: Use mcp__contextstream__session(action=\"capture_plan\", title=\"...\", steps=[...]) " ++
    "instead of Task with Plan subagent. ContextStream plans persist across sessions."

/-- The redirect message `main` prints for EnterPlanMode. -/
def enterPlanMsg : String :=
  "STOP: Use mcp__contextstream__session(action=\"capture_plan\", title=\"...\", steps=[...]) " ++
    "instead of EnterPlanMode. ContextStream plans persist across sessions and are searchable."

/-- The per-tool branch chain at the end of `main`, reached only after the
project-root, index and ignore gates have all passed. -/
def dispatchTool (tool_name : String) (ti : ToolInput) : Verdict :=
  if tool_name = "Glob" then
    let pattern := ti.pattern.getD ""
    if is_discovery_glob pattern then .block (globMsg pattern) else .allow
  else if tool_name = "Grep" then
    let pattern := ti.pattern.getD ""
    let file_path := ti.path.getD ""
    if is_discovery_grep pattern file_path then .block (grepMsg pattern) else .allow
  else if tool_name = "Search" then .allow
  else if tool_name = "Task" then
    let subagent_type := pyLower (ti.subagent_type.getD "")
    if subagent_type = "explore" then .block exploreMsg
    else if subagent_type = "plan" then .block taskPlanMsg
    else .allow
  else if tool_name = "Read" then .allow
  else if tool_name = "EnterPlanMode" then .block enterPlanMsg
  else .allow

/-- `main()` for a parsed stdin record: the environment toggle, the
target-path/project-root gate, the indexed gate (whose registry lookup can
raise), the ignore gate, then the per-tool dispatch.  `.error e` models the
uncaught exception aborting the process with a traceback (exit status 1,
neither the allow status 0 nor the block status 2). -/
def hookMain (env : Env) (blocking_enabled : Bool) (tool_name : String)
    (ti : ToolInput) : Except PyError Verdict :=
  if blocking_enabled = false then .ok .allow
  else
    match get_target_path env.cwd tool_name ti with
    | none => .ok .allow
    | some tp =>
      if tp = "" then .ok .allow
      else
        match find_project_root env tp with
        | none => .ok .allow
        | some root =>
          match is_project_indexed env (segString root) with
          | .error e => .error e
          | .ok idx =>
            if idx then
              let patterns := load_ignore_patterns env root
              if tp ≠ "" ∧ is_path_ignored env tp patterns root = true then .ok .allow
              else .ok (dispatchTool tool_name ti)
            else .ok .allow

/-! ### Helper lemmas -/

/-- A char list containing `**` also contains `*`. -/
lemma contains_star_of_contains_dstar (l : List Char) :
    containsSubList ['*', '*'] l = true → containsSubList ['*'] l = true := by
  induction l with
  | nil => simp [containsSubList]
  | cons c rest ih =>
    simp only [containsSubList, List.isPrefixOf, Bool.or_eq_true, Bool.and_eq_true] at *
    rintro (⟨hc, _⟩ | h)
    · exact Or.inl ⟨hc, trivial⟩
    · exact Or.inr (ih h)

/-- `"**" in s` implies `"*" in s`, so the second disjunct of the grep
classifier's wildcard test is redundant. -/
lemma containsSub_star_absorb (fp : String) :
    containsSub fp "**" = true → containsSub fp "*" = true := by
  intro h
  exact contains_star_of_contains_dstar fp.data h

/-- Walking up from a marker-free descendant chain `d ++ e` reaches the same
state as starting the walk at `d`: each strictly-deeper level has neither a
`.contextstream` directory nor a `.git` entry, so every iteration just drops
the last segment. -/
lemma findRootFromFuel_append (fs : FS) (d e : List String)
    (hfree : ∀ n, 0 < n → n ≤ e.length →
      fs.is_dir (d ++ e.take n ++ [".contextstream"]) = false ∧
      fs.pathExists (d ++ e.take n ++ [".git"]) = false) :
    findRootFromFuel fs (d ++ e).length (d ++ e) = findRootFromFuel fs d.length d := by
  induction e using List.reverseRecOn with
  | nil => simp
  | append_singleton e' x ih =>
    have hm := hfree (e' ++ [x]).length (by simp) (le_refl _)
    rw [List.take_length] at hm
    simp only [List.append_assoc, List.cons_append, List.nil_append] at hm
    have hstep : d ++ (e' ++ [x]) = (d ++ e') ++ [x] := (List.append_assoc d e' [x]).symm
    rw [hstep]
    have hlen2 : ((d ++ e') ++ [x]).length = (d ++ e').length + 1 := by simp; omega
    rw [hlen2]
    rw [findRootFromFuel]
    rw [if_neg (by simp : ¬ ((d ++ e') ++ [x] = []))]
    rw [if_neg (by simp [hm.1])]
    rw [if_neg (by simp [hm.2])]
    rw [List.dropLast_concat]
    refine ih ?_
    intro n hn hle
    have h := hfree n hn (by simp; omega)
    rwa [List.take_append_of_le_length hle] at h

/-- The walk stops at a non-root directory carrying a marker: either the
primary `.contextstream` directory, or — after that check fails — any
`.git` entry. -/
lemma findRootFromFuel_marker (fs : FS) (d : List String) (hd : d ≠ [])
    (h : fs.is_dir (d ++ [".contextstream"]) = true ∨
      (fs.is_dir (d ++ [".contextstream"]) = false ∧
        fs.pathExists (d ++ [".git"]) = true)) :
    findRootFromFuel fs d.length d = some d := by
  obtain ⟨k, hk⟩ : ∃ k, d.length = k + 1 := by
    cases d with
    | nil => exact absurd rfl hd
    | cons a as => exact ⟨as.length, rfl⟩
  rw [hk, findRootFromFuel]
  rcases h with h1 | ⟨h1, h2⟩
  · simp [hd, h1]
  · simp [hd, h1, h2]

/-! ### Concrete environments used by witnesses and counterexamples -/

/-- Environment with no filesystem markers at all and an empty registry. -/
def env3 : Env :=
  ⟨⟨fun _ => false, fun _ => false, fun _ => false⟩, fun _ => [], .missing,
    fun _ => .absent, "/cwd"⟩

/-- Environment whose resolver maps everything to a markerless directory. -/
def env5 : Env :=
  ⟨⟨fun _ => false, fun _ => false, fun _ => false⟩, fun _ => ["a"], .missing,
    fun _ => .absent, "/a"⟩

/-- Tool input for a Grep of a path that resolves to no project. -/
def ti5 : ToolInput := ⟨some "x", some "/nowhere", none, none⟩

/-- Environment with a tolerated (missing) registry store. -/
def env2 : Env :=
  ⟨⟨fun _ => false, fun _ => false, fun p => p = ["q", ".git"]⟩,
    fun s => if s = "/q" then ["q"] else [], .missing, fun _ => .absent, "/q"⟩

/-- Tool input for a discovery Glob inside the `env2` project. -/
def ti2 : ToolInput := ⟨some "**/*", some "/q", none, none⟩

/-- Indexed project `/home/u/proj` (its `.contextstream` directory exists and
the registry lists it) whose `node_modules` content is ignored. -/
def env4 : Env :=
  ⟨⟨fun p => p = ["home", "u", "proj", ".contextstream"], fun _ => false, fun _ => false⟩,
    fun s =>
      if s = "/home/u/proj/node_modules/x.ts" then ["home", "u", "proj", "node_modules", "x.ts"]
      else if s = "/home/u/proj" then ["home", "u", "proj"]
      else [],
    .readable (some (.obj [("projects", .obj [("/home/u/proj", .null)])])),
    fun _ => .absent, "/home/u/proj"⟩

/-- A discovery-shaped Glob aimed at the ignored `node_modules` tree. -/
def ti4 : ToolInput :=
  ⟨some "node_modules/**/*", some "/home/u/proj/node_modules/x.ts", none, none⟩

/-- Indexed project `/abs/project`; resolver knows the project root, its
`src` directory and the single-file grep target. -/
def env6 : Env :=
  ⟨⟨fun p => p = ["abs", "project", ".contextstream"], fun _ => false, fun _ => false⟩,
    fun s =>
      if s = "/abs/project/src/main.ts:42" then ["abs", "project", "src", "main.ts:42"]
      else if s = "/abs/project/src" then ["abs", "project", "src"]
      else if s = "/abs/project" then ["abs", "project"]
      else [],
    .readable (some (.obj [("projects", .obj [("/abs/project", .null)])])),
    fun _ => .absent, "/abs/project"⟩

/-- Targeted Grep: literal pattern, wildcard-free single-file path. -/
def ti6 : ToolInput := ⟨some "TODO", some "/abs/project/src/main.ts:42", none, none⟩

/-- Same project as `env6`, separate copy for the Glob scenario. -/
def env7 : Env :=
  ⟨⟨fun p => p = ["abs", "project", ".contextstream"], fun _ => false, fun _ => false⟩,
    fun s =>
      if s = "/abs/project/src" then ["abs", "project", "src"]
      else if s = "/abs/project" then ["abs", "project"]
      else [],
    .readable (some (.obj [("projects", .obj [("/abs/project", .null)])])),
    fun _ => .absent, "/abs/project"⟩

/-- Discovery Glob over the project's non-ignored `src` directory. -/
def ti7 : ToolInput := ⟨some "**/*.ts", some "/abs/project/src", none, none⟩

/-- Project directory `/pr` carrying both markers, with descendant `/pr/sub`. -/
def env8 : Env :=
  ⟨⟨fun p => p = ["pr", ".contextstream"], fun _ => false, fun p => p = ["pr", ".git"]⟩,
    fun s => if s = "/pr" then ["pr"] else if s = "/pr/sub" then ["pr", "sub"] else [],
    .missing, fun _ => .absent, "/pr"⟩

/-- Registry store parsing to a JSON array; a Read target inside a git
project, so the indexed-check is reached and raises. -/
def env9 : Env :=
  ⟨⟨fun _ => false, fun _ => false, fun p => p = ["p", ".git"]⟩,
    fun s => if s = "/p/a" then ["p", "a"] else [],
    .readable (some (.arr [])), fun _ => .absent, "/p"⟩

/-- Read of a concrete file under the `env9` project. -/
def ti9 : ToolInput := ⟨none, none, some "/p/a", none⟩

/-- Project directory `/gp` whose `.git` is a regular file (not a directory)
and which has no `.contextstream`, with descendant `/gp/sub`. -/
def env10 : Env :=
  ⟨⟨fun _ => false, fun p => p = ["gp", ".git"], fun p => p = ["gp", ".git"]⟩,
    fun s => if s = "/gp" then ["gp"] else if s = "/gp/sub" then ["gp", "sub"] else [],
    .missing, fun _ => .absent, "/gp"⟩

/-- The filesystem root `/` itself carries both markers. -/
def envR8 : Env :=
  ⟨⟨fun p => p = [".contextstream"], fun _ => false, fun p => p = [".git"]⟩,
    fun s => if s = "/" then [] else ["x"], .missing, fun _ => .absent, "/"⟩

/-- The filesystem root `/` carries a regular-file `.git` and no
`.contextstream`. -/
def envR10 : Env :=
  ⟨⟨fun _ => false, fun p => p = [".git"], fun p => p = [".git"]⟩,
    fun s => if s = "/" then [] else ["x"], .missing, fun _ => .absent, "/"⟩

/-! ### Claim theorems -/

/-- C1: contrary to the claim that EnterPlanMode and Task dispatches with the
explore/plan sub-agent always block, `main` returns allow (exit 0) for every
EnterPlanMode and every Task record in every environment: `get_target_path`
yields no path for these tool kinds, so the early no-project-root gate allows
before their blocking branches can run.  The last three conjuncts evaluate
those branches in isolation, showing the code's own dispatch stage would
block exactly as the claim describes had it been reached. -/
theorem C1_task_planmode_dead_branches (env : Env) (ti : ToolInput) :
    hookMain env true "EnterPlanMode" ti = .ok .allow ∧
    hookMain env true "Task" ti = .ok .allow ∧
    dispatchTool "EnterPlanMode" ti = .block enterPlanMsg ∧
    dispatchTool "Task" ⟨none, none, none, some "Explore"⟩ = .block exploreMsg ∧
    dispatchTool "Task" ⟨none, none, none, some "Plan"⟩ = .block taskPlanMsg :=
  ⟨rfl, rfl, rfl, rfl, rfl⟩

/-- C2: a missing store, an unreadable store, and content that fails to parse
as JSON all yield the empty mapping, make `is_project_indexed` false for every
root, and make every call allow — but content that parses as JSON without
being an object (here the array `[]`) raises an uncaught `AttributeError`
from `.get`, contradicting the claim that no failure is ever propagated. -/
theorem C2_registry_tolerance_and_crash :
    (read_indexed_projects .missing = .ok (.obj []) ∧
     read_indexed_projects .unreadable = .ok (.obj []) ∧
     read_indexed_projects (.readable none) = .ok (.obj [])) ∧
    read_indexed_projects (.readable (some (.arr []))) = .error .attributeError ∧
    (∀ (env : Env) (root : String),
      (env.registry = .missing ∨ env.registry = .unreadable ∨
        env.registry = .readable none) →
      is_project_indexed env root = .ok false) ∧
    (∀ (env : Env) (name : String) (ti : ToolInput),
      (env.registry = .missing ∨ env.registry = .unreadable ∨
        env.registry = .readable none) →
      hookMain env true name ti = .ok .allow) := by
  have key : ∀ (env : Env) (root : String),
      (env.registry = .missing ∨ env.registry = .unreadable ∨
        env.registry = .readable none) →
      is_project_indexed env root = .ok false := by
    intro env root h
    unfold is_project_indexed
    by_cases h0 : root = ""
    · simp [h0]
    · rcases h with h | h | h <;>
        simp [h0, h, read_indexed_projects, py_member, py_iter, anyNormEq]
  refine ⟨⟨rfl, rfl, rfl⟩, rfl, key, ?_⟩
  intro env name ti h
  unfold hookMain
  cases hg : get_target_path env.cwd name ti with
  | none => simp
  | some tp =>
    by_cases h0 : tp = ""
    · simp [h0]
    · cases hr : find_project_root env tp with
      | none => simp [h0, hr]
      | some root => simp [h0, hr, key env (segString root) h]

/-- C2 witness: with a missing store, a concrete root is reported unindexed
and a concrete discovery Glob in a git project is allowed. -/
theorem C2_witness :
    is_project_indexed env2 "/x" = .ok false ∧
    hookMain env2 true "Glob" ti2 = .ok .allow :=
  ⟨C2_registry_tolerance_and_crash.2.2.1 env2 "/x" (Or.inl rfl),
   C2_registry_tolerance_and_crash.2.2.2 env2 "Glob" ti2 (Or.inl rfl)⟩

/-- C3 counterexample: a Glob whose target path is not resolvable at all (the
`path` field is the empty string, so no project root is even looked up) is
allowed, not blocked as discovery, although its pattern is discovery-shaped. -/
theorem C3_cex :
    hookMain env3 true "Glob" ⟨some "**/*.ts", some "", none, none⟩ = .ok .allow := rfl

/-- C3 amended: a GlobLike call with no resolvable target path (empty target
or no project root found from it) is allowed with no message; a ReadLike call
with a missing `file_path` field likewise defaults to allow; a GrepLike call
with a missing `path` field classifies as discovery, not targeted. -/
theorem C3_amended (env : Env) (ti : ToolInput)
    (h : match get_target_path env.cwd "Glob" ti with
         | none => True
         | some tp => tp = "" ∨ find_project_root env tp = none) :
    hookMain env true "Glob" ti = .ok .allow ∧
    (∀ a b c, hookMain env true "Read" (ToolInput.mk a b none c) = .ok .allow) ∧
    (∀ p, is_discovery_grep p "" = true) := by
  refine ⟨?_, fun a b c => rfl, fun p => rfl⟩
  unfold hookMain
  cases hg : get_target_path env.cwd "Glob" ti with
  | none => simp
  | some tp =>
    rw [hg] at h
    rcases h with h | h
    · simp [h]
    · by_cases h0 : tp = ""
      · simp [h0]
      · simp [h0, h]

/-- Tool input for the C3 witness: a discovery Glob over a rootless path. -/
def ti3 : ToolInput := ⟨some "**/*", some "/x", none, none⟩

/-- C3 witness: concrete rootless Glob, field-free Read and empty-path Grep
classification. -/
theorem C3_amended_witness :
    hookMain env3 true "Glob" ti3 = .ok .allow ∧
    hookMain env3 true "Read" (ToolInput.mk none none none none) = .ok .allow ∧
    is_discovery_grep "TODO" "" = true := by
  obtain ⟨h1, h2, h3⟩ := C3_amended env3 ti3 (Or.inr rfl)
  exact ⟨h1, h2 none none none, h3 "TODO"⟩

/-- C4: with a resolved project root that is indexed, a target path matching
the ignore set makes the verdict allow with no message, for every tool kind
and parameters — in particular for parameters that classify as discovery. -/
theorem C4_ignored_allows (env : Env) (name : String) (ti : ToolInput)
    (tp : String) (root : List String)
    (h1 : get_target_path env.cwd name ti = some tp)
    (h2 : tp ≠ "")
    (h3 : find_project_root env tp = some root)
    (h4 : is_project_indexed env (segString root) = .ok true)
    (h5 : is_path_ignored env tp (load_ignore_patterns env root) root = true) :
    hookMain env true name ti = .ok .allow := by
  unfold hookMain
  rw [h1]
  simp [h2, h3, h4, h5]

/-- C4 witness: a discovery Glob (`node_modules/**/*`) aimed at the ignored
`node_modules` tree of an indexed project is allowed. -/
theorem C4_witness : hookMain env4 true "Glob" ti4 = .ok .allow :=
  C4_ignored_allows env4 "Glob" ti4 "/home/u/proj/node_modules/x.ts"
    ["home", "u", "proj"] rfl (by decide) rfl rfl rfl

/-- C5: whenever the Project Resolver yields no root for the call's target
path (including tool kinds that have no target path at all), the verdict is
allow with no message, for every tool kind and parameters. -/
theorem C5_no_root_allows (env : Env) (name : String) (ti : ToolInput)
    (h : match get_target_path env.cwd name ti with
         | none => True
         | some tp => find_project_root env tp = none) :
    hookMain env true name ti = .ok .allow := by
  unfold hookMain
  cases hg : get_target_path env.cwd name ti with
  | none => simp
  | some tp =>
    rw [hg] at h
    by_cases h0 : tp = ""
    · simp [h0]
    · simp [h0, h]

/-- C5 witness: a Grep whose path resolves into a markerless directory tree
is allowed. -/
theorem C5_witness : hookMain env5 true "Grep" ti5 = .ok .allow :=
  C5_no_root_allows env5 "Grep" ti5 rfl

/-- C6: the grep classifier returns discovery exactly when no path is given,
the path is one of the search-everywhere tokens, or the path contains the
wildcard `*` (the code's extra `"**"` test is absorbed); and the concrete
targeted Grep of `"TODO"` in `/abs/project/src/main.ts:42` is allowed in an
indexed, non-ignored project. -/
theorem C6_grep_classifier (env : Env) (ti : ToolInput) (root : List String)
    (hpat : ti.pattern = some "TODO")
    (hpath : ti.path = some "/abs/project/src/main.ts:42")
    (hroot : find_project_root env "/abs/project/src/main.ts:42" = some root)
    (hidx : is_project_indexed env (segString root) = .ok true)
    (hig : is_path_ignored env "/abs/project/src/main.ts:42"
        (load_ignore_patterns env root) root = false) :
    (∀ p fp, is_discovery_grep p fp =
      ((fp == "") || [".", "./", "*", "**"].contains fp || containsSub fp "*")) ∧
    hookMain env true "Grep" ti = .ok .allow := by
  constructor
  · intro p fp
    unfold is_discovery_grep
    by_cases h0 : fp = ""
    · simp [h0]
    · rw [if_neg h0]
      have hbeq : (fp == "") = false := by simp [h0]
      cases h1 : [".", "./", "*", "**"].contains fp
      · cases h2 : containsSub fp "*"
        · have h3 : containsSub fp "**" = false := by
            cases h3 : containsSub fp "**"
            · rfl
            · exact absurd (containsSub_star_absorb fp h3) (by simp [h2])
          simp [h1, h2, h3, hbeq]
        · simp [h1, h2, hbeq]
      · simp [h1]
  · unfold hookMain
    have hg : get_target_path env.cwd "Grep" ti = some "/abs/project/src/main.ts:42" := by
      simp [get_target_path, hpath]
    rw [hg]
    have hdg : is_discovery_grep "TODO" "/abs/project/src/main.ts:42" = false := by decide
    simp [hroot, hidx, hig, dispatchTool, hpat, hpath, hdg]

/-- C6 witness: the classifier equivalence evaluated at the scenario's path,
and the concrete allow in the indexed project `env6`. -/
theorem C6_witness :
    is_discovery_grep "TODO" "/abs/project/src/main.ts:42" =
      (("/abs/project/src/main.ts:42" == "") ||
        [".", "./", "*", "**"].contains "/abs/project/src/main.ts:42" ||
        containsSub "/abs/project/src/main.ts:42" "*") ∧
    hookMain env6 true "Grep" ti6 = .ok .allow := by
  have h := C6_grep_classifier env6 ti6 ["abs", "project"] rfl rfl rfl rfl rfl
  exact ⟨h.1 "TODO" "/abs/project/src/main.ts:42", h.2⟩

/-- C7: a Glob with pattern `**/*.ts` in an indexed, non-ignored project is
blocked, and the emitted message embeds the literal pattern and names the
hybrid search mode. -/
theorem C7_glob_discovery_blocks (env : Env) (ti : ToolInput) (tp : String)
    (root : List String)
    (hpat : ti.pattern = some "**/*.ts")
    (hpath : ti.path = some tp)
    (htp : tp ≠ "")
    (hroot : find_project_root env tp = some root)
    (hidx : is_project_indexed env (segString root) = .ok true)
    (hig : is_path_ignored env tp (load_ignore_patterns env root) root = false) :
    hookMain env true "Glob" ti = .ok (.block (globMsg "**/*.ts")) ∧
    containsSub (globMsg "**/*.ts") "**/*.ts" = true ∧
    containsSub (globMsg "**/*.ts") "mode=\"hybrid\"" = true := by
  refine ⟨?_, by decide, by decide⟩
  unfold hookMain
  have hg : get_target_path env.cwd "Glob" ti = some tp := by
    simp [get_target_path, hpath]
  rw [hg]
  have hdg : is_discovery_glob "**/*.ts" = true := by decide
  simp [htp, hroot, hidx, hig, dispatchTool, hpat, hdg]

/-- C7 witness: the concrete block with embedded pattern in project `env7`. -/
theorem C7_witness :
    hookMain env7 true "Glob" ti7 = .ok (.block (globMsg "**/*.ts")) ∧
    containsSub (globMsg "**/*.ts") "**/*.ts" = true ∧
    containsSub (globMsg "**/*.ts") "mode=\"hybrid\"" = true :=
  C7_glob_discovery_blocks env7 ti7 "/abs/project/src" ["abs", "project"]
    rfl rfl (by decide) rfl rfl rfl

/-- C8 counterexample: the filesystem root `/` carries both markers, yet the
resolver returns none for it — the walk never examines the root directory,
so "for every directory containing both markers" fails there. -/
theorem C8_cex :
    envR8.fs.is_dir [".contextstream"] = true ∧
    envR8.fs.pathExists [".git"] = true ∧
    envR8.resolve "/" = [] ∧
    find_project_root envR8 "/" = none :=
  ⟨rfl, rfl, rfl, rfl⟩

/-- C8 amended: for every directory other than the filesystem root that
carries both the primary `.contextstream` marker and the secondary `.git`
marker, the resolver returns that directory itself (the primary check wins),
identically when started at the directory or at any marker-free descendant. -/
theorem C8_amended (env : Env) (s t : String) (d e : List String)
    (hd : d ≠ [])
    (hcs : env.fs.is_dir (d ++ [".contextstream"]) = true)
    (hgit : env.fs.pathExists (d ++ [".git"]) = true)
    (hres_s : env.resolve s = d) (hfile_s : env.fs.is_file d = false)
    (hres_t : env.resolve t = d ++ e) (hfile_t : env.fs.is_file (d ++ e) = false)
    (hfree : ∀ n, 0 < n → n ≤ e.length →
      env.fs.is_dir (d ++ e.take n ++ [".contextstream"]) = false ∧
      env.fs.pathExists (d ++ e.take n ++ [".git"]) = false) :
    find_project_root env s = some d ∧ find_project_root env t = some d := by
  constructor
  · simp only [find_project_root, hres_s, hfile_s, Bool.false_eq_true, if_false]
    exact findRootFromFuel_marker env.fs d hd (Or.inl hcs)
  · simp only [find_project_root, hres_t, hfile_t, Bool.false_eq_true, if_false]
    rw [findRootFromFuel_append env.fs d e hfree]
    exact findRootFromFuel_marker env.fs d hd (Or.inl hcs)

/-- C8 witness: `/pr` carries both markers; resolution from `/pr` and from
its marker-free child `/pr/sub` both return `/pr`. -/
theorem C8_witness :
    find_project_root env8 "/pr" = some ["pr"] ∧
    find_project_root env8 "/pr/sub" = some ["pr"] :=
  C8_amended env8 "/pr" "/pr/sub" ["pr"] ["sub"] (by decide) rfl rfl rfl rfl rfl rfl
    (fun n hn hle => by
      have hn1 : n = 1 := le_antisymm hle hn
      subst hn1
      exact ⟨rfl, rfl⟩)

/-- C9: contrary to the claim that every ReadLike call returns allow, a Read
inside a git project crashes with the uncaught registry `AttributeError`
when the store content is a JSON array; apart from that crash path the
engine does return allow on every Read — it never blocks one, so the Read
discovery classification is indeed never consulted. -/
theorem C9_read_never_blocked :
    hookMain env9 true "Read" ti9 = .error .attributeError ∧
    ∀ (env : Env) (ti : ToolInput),
      hookMain env true "Read" ti = .ok .allow ∨
        ∃ e, hookMain env true "Read" ti = .error e := by
  refine ⟨rfl, ?_⟩
  intro env ti
  unfold hookMain
  have hg : get_target_path env.cwd "Read" ti = some (ti.file_path.getD "") := rfl
  rw [hg]
  by_cases h0 : ti.file_path.getD "" = ""
  · left; simp [h0]
  · cases hr : find_project_root env (ti.file_path.getD "") with
    | none => left; simp [h0, hr]
    | some root =>
      cases hi : is_project_indexed env (segString root) with
      | error e => right; exact ⟨e, by simp [h0, hr, hi]⟩
      | ok idx =>
        cases idx with
        | false => left; simp [h0, hr, hi]
        | true =>
          by_cases hig : (ti.file_path.getD "" ≠ "" ∧
              is_path_ignored env (ti.file_path.getD "")
                (load_ignore_patterns env root) root = true)
          · left; simp [h0, hr, hi, hig]
          · left
            have hd : dispatchTool "Read" ti = .allow := rfl
            simp [h0, hr, hi, hig, hd]

/-- C10 counterexample: the filesystem root `/` carries a regular-file `.git`
and no `.contextstream`, yet the resolver returns none for it, so "for every
directory containing a regular `.git` entry" fails at the root. -/
theorem C10_cex :
    envR10.fs.pathExists [".git"] = true ∧
    envR10.fs.is_dir [".git"] = false ∧
    envR10.fs.is_dir [".contextstream"] = false ∧
    envR10.resolve "/" = [] ∧
    find_project_root envR10 "/" = none :=
  ⟨rfl, rfl, rfl, rfl, rfl⟩

/-- C10 amended: for every directory other than the filesystem root carrying
a `.git` entry that exists without being a directory (the secondary check is
mere existence) and no `.contextstream` directory, the resolver returns that
directory, identically from itself or any marker-free descendant. -/
theorem C10_amended (env : Env) (s t : String) (d e : List String)
    (hd : d ≠ [])
    (hcs : env.fs.is_dir (d ++ [".contextstream"]) = false)
    (hgit : env.fs.pathExists (d ++ [".git"]) = true)
    (hgitdir : env.fs.is_dir (d ++ [".git"]) = false)
    (hres_s : env.resolve s = d) (hfile_s : env.fs.is_file d = false)
    (hres_t : env.resolve t = d ++ e) (hfile_t : env.fs.is_file (d ++ e) = false)
    (hfree : ∀ n, 0 < n → n ≤ e.length →
      env.fs.is_dir (d ++ e.take n ++ [".contextstream"]) = false ∧
      env.fs.pathExists (d ++ e.take n ++ [".git"]) = false) :
    find_project_root env s = some d ∧ find_project_root env t = some d := by
  constructor
  · simp only [find_project_root, hres_s, hfile_s, Bool.false_eq_true, if_false]
    exact findRootFromFuel_marker env.fs d hd (Or.inr ⟨hcs, hgit⟩)
  · simp only [find_project_root, hres_t, hfile_t, Bool.false_eq_true, if_false]
    rw [findRootFromFuel_append env.fs d e hfree]
    exact findRootFromFuel_marker env.fs d hd (Or.inr ⟨hcs, hgit⟩)

/-- C10 witness: `/gp` has a regular-file `.git` and no `.contextstream`;
resolution from `/gp` and from its marker-free child `/gp/sub` returns
`/gp`. -/
theorem C10_witness :
    find_project_root env10 "/gp" = some ["gp"] ∧
    find_project_root env10 "/gp/sub" = some ["gp"] :=
  C10_amended env10 "/gp" "/gp/sub" ["gp"] ["sub"] (by decide) rfl rfl rfl rfl rfl rfl rfl
    (fun n hn hle => by
      have hn1 : n = 1 := le_antisymm hle hn
      subst hn1
      exact ⟨rfl, rfl⟩)

end CSHook
